import Mathlib

/-!
Verification of the pHouseMcp HTTP transport, OAuth gate, gateway startup
and cron scheduler. The definitions below are a shallow embedding of
src/src/lib/http-transport.ts, src/src/gateway.ts and the cron MCP server
source. Machine state (the authCodes map, the session registries, the
scheduler JSON file) is passed explicitly; external library calls
(node:crypto digests, JSON.parse, Date formatters) are parameters.
-/

/-- Truthiness of a JS optional string value: undefined and the empty
string are falsy, every other string is truthy. -/
def jsTruthy : Option String → Bool
  | none => false
  | some s => !(s == "")

/-- One entry of the in-memory authCodes map (http-transport.ts lines
23-29). -/
structure AuthCode where
  codeChallenge : String
  codeChallengeMethod : String
  redirectUri : String
  clientId : String
  expiresAt : Int
  deriving DecidableEq, Repr

/-- The authCodes registry, a JS Map keyed by the code string, modelled
as an association list in insertion order. -/
abbrev AuthCodeStore := List (String × AuthCode)

/-- Map.get with a possibly-undefined key (get of undefined finds
nothing: keys in the store are generated UUID strings). -/
def storeGet (store : AuthCodeStore) (key : Option String) : Option AuthCode :=
  match key with
  | none => none
  | some k => (store.find? (fun p => p.1 == k)).map (fun p => p.2)

/-- Map.set: replaces the entry for the key in place when present,
otherwise appends a new entry. -/
def storeSet (store : AuthCodeStore) (k : String) (v : AuthCode) : AuthCodeStore :=
  if store.any (fun p => p.1 == k) then
    store.map (fun p => if p.1 == k then (k, v) else p)
  else
    store ++ [(k, v)]

/-- Map.delete with a possibly-undefined key. -/
def storeDelete (store : AuthCodeStore) (key : Option String) : AuthCodeStore :=
  match key with
  | none => store
  | some k => store.filter (fun p => !(p.1 == k))

/-- verifyPkce (http-transport.ts lines 34-42). The SHA-256 plus
base64url digest comes from node:crypto, an external library, so it is a
parameter of the embedding. -/
def verifyPkce (sha256base64url : String → String)
    (codeVerifier codeChallenge method : String) : Bool :=
  if method = "S256" then
    sha256base64url codeVerifier == codeChallenge
  else if method = "plain" then
    codeVerifier == codeChallenge
  else
    false

/-- Responses sent by the OAuth endpoints: a 400-class JSON error, the
token response body, or a 302 redirect carrying the issued code and the
echoed state. -/
inductive OAuthResponse where
  | err (status : Nat) (error : String) (errorDescription : Option String)
  | token (accessToken tokenType : String) (expiresIn : Nat) (scope : String)
  | redirect (uri code : String) (state : Option String)
  deriving DecidableEq, Repr

/-- Query parameters of GET /oauth/authorize; absent parameters are
none. -/
structure AuthorizeRequest where
  response_type : Option String
  client_id : Option String
  redirect_uri : Option String
  code_challenge : Option String
  code_challenge_method : Option String
  state : Option String
  deriving DecidableEq, Repr

/-- Body fields of POST /oauth/token; absent fields are none. -/
structure TokenRequest where
  grant_type : Option String
  code : Option String
  redirect_uri : Option String
  code_verifier : Option String
  deriving DecidableEq, Repr

/-- GET /oauth/authorize handler (http-transport.ts lines 196-237 and the
identical copy at lines 514-550). The randomUUID code and the current
time are inputs; returns the response and the updated authCodes store. -/
def authorizeHandler (nowMs : Int) (newCode : String)
    (req : AuthorizeRequest) (store : AuthCodeStore) :
    OAuthResponse × AuthCodeStore :=
  if !(req.response_type = some "code") then
    (.err 400 "unsupported_response_type" none, store)
  else if !(jsTruthy req.redirect_uri) || !(jsTruthy req.code_challenge) then
    (.err 400 "invalid_request" (some "Missing required parameters"), store)
  else
    let entry : AuthCode :=
      { codeChallenge := req.code_challenge.getD ""
        codeChallengeMethod :=
          if jsTruthy req.code_challenge_method then
            req.code_challenge_method.getD ""
          else "S256"
        redirectUri := req.redirect_uri.getD ""
        clientId := if jsTruthy req.client_id then req.client_id.getD "" else "unknown"
        expiresAt := nowMs + 10 * 60 * 1000 }
    (.redirect (req.redirect_uri.getD "") newCode
        (if jsTruthy req.state then req.state else none),
     storeSet store newCode entry)

/-- POST /oauth/token handler of startHttpServer (http-transport.ts lines
240-294). -/
def tokenHandlerLocal (hash : String → String) (clientSecret : String)
    (nowMs : Int) (req : TokenRequest) (store : AuthCodeStore) :
    OAuthResponse × AuthCodeStore :=
  if !(req.grant_type = some "authorization_code") then
    (.err 400 "unsupported_grant_type" none, store)
  else
    match storeGet store req.code with
    | none => (.err 400 "invalid_grant" (some "Invalid or expired code"), store)
    | some authCode =>
      if nowMs > authCode.expiresAt then
        (.err 400 "invalid_grant" (some "Code expired"), storeDelete store req.code)
      else if jsTruthy req.redirect_uri && !(req.redirect_uri = some authCode.redirectUri) then
        (.err 400 "invalid_grant" (some "Redirect URI mismatch"), store)
      else if !(jsTruthy req.code_verifier) then
        (.err 400 "invalid_grant" (some "Missing code_verifier"), store)
      else if !(verifyPkce hash (req.code_verifier.getD "") authCode.codeChallenge
          authCode.codeChallengeMethod) then
        (.err 400 "invalid_grant" (some "PKCE verification failed"), store)
      else
        (.token clientSecret "Bearer" 3600 "mcp:tools", storeDelete store req.code)

/-- POST /oauth/token handler of createGatewayServer (http-transport.ts
lines 553-592); identical to the local one except that a missing
code_verifier and a failed PKCE check share one error message. -/
def tokenHandlerGateway (hash : String → String) (clientSecret : String)
    (nowMs : Int) (req : TokenRequest) (store : AuthCodeStore) :
    OAuthResponse × AuthCodeStore :=
  if !(req.grant_type = some "authorization_code") then
    (.err 400 "unsupported_grant_type" none, store)
  else
    match storeGet store req.code with
    | none => (.err 400 "invalid_grant" (some "Invalid or expired code"), store)
    | some authCode =>
      if nowMs > authCode.expiresAt then
        (.err 400 "invalid_grant" (some "Code expired"), storeDelete store req.code)
      else if jsTruthy req.redirect_uri && !(req.redirect_uri = some authCode.redirectUri) then
        (.err 400 "invalid_grant" (some "Redirect URI mismatch"), store)
      else if !(jsTruthy req.code_verifier)
          || !(verifyPkce hash (req.code_verifier.getD "") authCode.codeChallenge
              authCode.codeChallengeMethod) then
        (.err 400 "invalid_grant" (some "PKCE verification failed"), store)
      else
        (.token clientSecret "Bearer" 3600 "mcp:tools", storeDelete store req.code)

/-- Outcome of the MCP POST handler: the request was forwarded to an
existing transport, a new session transport handled an initialize
request, or a client error was returned. -/
inductive McpOutcome where
  | forwarded (sessionId : String)
  | newSession (sessionId : String)
  | clientError (status : Nat) (code : Int) (message : String)
  deriving DecidableEq, Repr

/-- mcpPostHandler of startHttpServer (http-transport.ts lines 309-360).
The registry is the set of live session ids; newSid is the id that
randomUUID would assign and that onsessioninitialized registers. -/
def mcpPostHandler (newSid : String) (transports : List String)
    (sessionId : Option String) (bodyIsInit : Bool) : McpOutcome × List String :=
  if jsTruthy sessionId && transports.contains (sessionId.getD "") then
    (.forwarded (sessionId.getD ""), transports)
  else if !(jsTruthy sessionId) && bodyIsInit then
    (.newSession newSid, transports ++ [newSid])
  else
    (.clientError 400 (-32000) "Bad Request: No valid session ID", transports)

/-- mcpPostHandler created inside gateway mount (http-transport.ts lines
612-660); the shared registry maps session ids to their server name. -/
def mcpPostHandlerGateway (serverName newSid : String)
    (allTransports : List (String × String))
    (sessionId : Option String) (bodyIsInit : Bool) :
    McpOutcome × List (String × String) :=
  if jsTruthy sessionId && allTransports.any (fun p => p.1 == sessionId.getD "") then
    (.forwarded (sessionId.getD ""), allTransports)
  else if !(jsTruthy sessionId) && bodyIsInit then
    (.newSession newSid, allTransports ++ [(newSid, serverName)])
  else
    (.clientError 400 (-32000) "Bad Request: No valid session ID", allTransports)

/-! Embedding of the cron server's delay parser (cron server source,
parseDelay and getTorontoNow). Instants are milliseconds since the Unix
epoch as integers; the reparsed Toronto-local Date of getTorontoNow is
the abstract integer torontoNow, and JS Date day arithmetic (setHours,
setDate plus one) is done on epoch days, matching a host process running
in a timezone without UTC offset. The regexes are implemented over the
character lists of the (ASCII) lower-cased and trimmed input. -/

/-- Lower-casing of one character as String.prototype.toLowerCase does on
the ASCII range. -/
def jsLowerChar (c : Char) : Char :=
  if 'A' ≤ c ∧ c ≤ 'Z' then Char.ofNat (c.toNat + 32) else c

/-- String.prototype.toLowerCase, ASCII fragment. -/
def jsToLower (s : String) : String :=
  ⟨s.data.map jsLowerChar⟩

/-- The whitespace class of String.prototype.trim and of the regex
escape for spaces, ASCII fragment. -/
def isJsWs (c : Char) : Bool :=
  c == ' ' || c == '\t' || c == '\n' || c == '\r' || c == '\x0B' || c == '\x0C'

/-- String.prototype.trim, ASCII fragment. -/
def jsTrim (s : String) : String :=
  ⟨((s.data.dropWhile isJsWs).reverse.dropWhile isJsWs).reverse⟩

/-- The lower variable of parseDelay: delay.toLowerCase().trim(). -/
def normDelay (delay : String) : String :=
  jsTrim (jsToLower delay)

/-- Decimal digit test of the regex digit class. -/
def isDigitChar (c : Char) : Bool :=
  '0' ≤ c && c ≤ '9'

/-- Numeric value of a list of decimal digits (what parseInt returns on
the captured digit groups). -/
def digitsToNat (ds : List Char) : Nat :=
  ds.foldl (fun a c => a * 10 + (c.toNat - '0'.toNat)) 0

/-- Greedy span of leading digits. -/
def takeDigits : List Char → List Char × List Char
  | [] => ([], [])
  | c :: cs =>
    if isDigitChar c then
      let (d, r) := takeDigits cs
      (c :: d, r)
    else ([], c :: cs)

/-- Greedy skip of leading whitespace (the star-quantified space
class). -/
def skipWs : List Char → List Char
  | [] => []
  | c :: cs => if isJsWs c then skipWs cs else c :: cs

/-- One-or-more whitespace (the plus-quantified space class): fails when
no leading whitespace is present. -/
def ws1 : List Char → Option (List Char)
  | [] => none
  | c :: cs => if isJsWs c then some (skipWs cs) else none

/-- Matches a literal character sequence and returns the remainder. -/
def dropLit : List Char → List Char → Option (List Char)
  | [], rest => some rest
  | _ :: _, [] => none
  | l :: ls, c :: cs => if c == l then dropLit ls cs else none

/-- The unit alternation second, minute, hour, day of the in-regex. -/
def matchUnit (cs : List Char) : Option (String × List Char) :=
  match dropLit "second".data cs with
  | some r => some ("second", r)
  | none =>
    match dropLit "minute".data cs with
    | some r => some ("minute", r)
    | none =>
      match dropLit "hour".data cs with
      | some r => some ("hour", r)
      | none =>
        match dropLit "day".data cs with
        | some r => some ("day", r)
        | none => none

/-- The anchored in-regex of parseDelay: the word in, spaces, a digit
group, spaces, a unit word, an optional trailing s, end of input.
Returns the parsed amount and unit. -/
def inMatch (s : String) : Option (Nat × String) :=
  match dropLit "in".data s.data with
  | none => none
  | some r1 =>
    match ws1 r1 with
    | none => none
    | some r2 =>
      match takeDigits r2 with
      | ([], _) => none
      | (ds, r3) =>
        match ws1 r3 with
        | none => none
        | some r4 =>
          match matchUnit r4 with
          | none => none
          | some (u, r5) =>
            if r5 = [] ∨ r5 = ['s'] then some (digitsToNat ds, u) else none

/-- Tail of the at-regex after the hour and optional minutes: optional
spaces, an optional am or pm, end of input. -/
def atTail (cs : List Char) : Option (Option String) :=
  let r := skipWs cs
  if r = [] then some none
  else if r = ['a', 'm'] then some (some "am")
  else if r = ['p', 'm'] then some (some "pm")
  else none

/-- Optional colon-and-two-digit minute group of the at-regex, tried
with the group first and, on failure of the rest, without it, as the
backtracking regex engine does. -/
def atMinutes (h : Nat) (cs : List Char) : Option (Nat × Nat × Option String) :=
  match cs with
  | ':' :: d1 :: d2 :: rest =>
    if isDigitChar d1 && isDigitChar d2 then
      match atTail rest with
      | some ap => some (h, digitsToNat [d1, d2], ap)
      | none =>
        match atTail cs with
        | some ap => some (h, 0, ap)
        | none => none
    else
      match atTail cs with
      | some ap => some (h, 0, ap)
      | none => none
  | _ =>
    match atTail cs with
    | some ap => some (h, 0, ap)
    | none => none

/-- The anchored at-regex of parseDelay: the word at, spaces, one or two
digits (two preferred), an optional colon-minutes group, optional
spaces, an optional am or pm, end of input. Returns hour digits, minute
digits (zero when absent) and the am or pm tag. -/
def atMatch (s : String) : Option (Nat × Nat × Option String) :=
  match dropLit "at".data s.data with
  | none => none
  | some r1 =>
    match ws1 r1 with
    | none => none
    | some r2 =>
      match r2 with
      | d1 :: d2 :: rest =>
        if isDigitChar d1 then
          if isDigitChar d2 then
            match atMinutes (digitsToNat [d1, d2]) rest with
            | some res => some res
            | none => atMinutes (digitsToNat [d1]) (d2 :: rest)
          else atMinutes (digitsToNat [d1]) (d2 :: rest)
        else none
      | [d1] => if isDigitChar d1 then atMinutes (digitsToNat [d1]) [] else none
      | [] => none

/-- Milliseconds per unit word, with the dead fallback of the JS object
lookup (the regex only produces the four listed words). -/
def unitMs (u : String) : Int :=
  if u = "second" then 1000
  else if u = "minute" then 60 * 1000
  else if u = "hour" then 60 * 60 * 1000
  else if u = "day" then 24 * 60 * 60 * 1000
  else 60 * 1000

/-- parseDelay of the cron server: now is the real current instant,
torontoNow the reparsed Toronto-local one. Returns the run instant, or
none when neither regex matches. -/
def parseDelay (now torontoNow : Int) (delay : String) : Option Int :=
  let lower := normDelay delay
  match inMatch lower with
  | some (amount, unit) => some (now + (amount : Int) * unitMs unit)
  | none =>
    match atMatch lower with
    | some (h, minute, ampm) =>
      let hour1 := if ampm = some "pm" ∧ h < 12 then h + 12 else h
      let hour2 := if ampm = some "am" ∧ hour1 = 12 then 0 else hour1
      let target := (torontoNow / 86400000) * 86400000
          + (hour2 : Int) * 3600000 + (minute : Int) * 60000
      let target2 := if target ≤ torontoNow then target + 86400000 else target
      some (now + (target2 - torontoNow))
    | none => none

/-- Modelled from the spec: the classic 12-hour convention of the claim,
12am becomes 0, pm adds 12 unless the hour is already at least 12. -/
def resolveHour12 (h : Nat) (ampm : Option String) : Nat :=
  if ampm = some "am" then (if h = 12 then 0 else h)
  else if ampm = some "pm" then (if 12 ≤ h then h else h + 12)
  else h

/-- Modelled from the spec: the Toronto wall-clock target of the claim,
built on the current Toronto day and rolled forward one day whenever it
is not strictly after the Toronto now. -/
def atTargetSpec (torontoNow : Int) (h m : Nat) (ampm : Option String) : Int :=
  let sameDay := (torontoNow / 86400000) * 86400000
      + (resolveHour12 h ampm : Int) * 3600000 + (m : Int) * 60000
  if sameDay ≤ torontoNow then sameDay + 86400000 else sameDay

/-! Embedding of the cron scheduler store (cron server source) and of
the gateway startup (src/src/gateway.ts). -/

/-- One job record of the cron JSON config file. -/
structure CronJob where
  id : String
  enabled : Bool
  schedule : String
  description : String
  prompt : String
  created_at : String
  updated_at : String
  run_once : Option Bool := none
  run_at : Option String := none
  deriving DecidableEq, Repr

/-- Shape of the cron config file. -/
structure CronConfig where
  jobs : List CronJob
  deriving DecidableEq, Repr

/-- State of the config file on disk as loadConfig observes it: absent,
readable but failing to read or parse, or readable content. -/
inductive FileState where
  | missing
  | unreadable
  | content (s : String)
  deriving DecidableEq, Repr

/-- loadConfig of the cron server: a missing file, a read error or a
JSON.parse error (parseJson, the external JSON parser, returning none)
all fall through to the empty job list. -/
def loadConfig (parseJson : String → Option CronConfig) : FileState → CronConfig
  | .missing => ⟨[]⟩
  | .unreadable => ⟨[]⟩
  | .content s =>
    match parseJson s with
    | some cfg => cfg
    | none => ⟨[]⟩

/-- Result of one tool call: the text content and the isError marker. -/
structure ToolResult where
  text : String
  isError : Bool := false
  deriving DecidableEq, Repr

/-- One line of the list_jobs output for one job. -/
def jobLine (job : CronJob) : String :=
  let status := if job.enabled then "✓ enabled" else "✗ disabled"
  "• " ++ job.id ++ "\n  Schedule: " ++ job.schedule
    ++ "\n  Description: " ++ job.description ++ "\n  Status: " ++ status

/-- The list_jobs branch of the call-tool handler. -/
def listJobsTool (includeDisabled : Bool) (config : CronConfig) : ToolResult :=
  let jobs := if includeDisabled then config.jobs else config.jobs.filter (fun j => j.enabled)
  if jobs.length = 0 then
    { text := "No scheduled jobs found." }
  else
    { text := "Scheduled Jobs:\n\n" ++ String.intercalate "\n\n" (jobs.map jobLine) }

/-- The create_job branch of the call-tool handler; newId is the
truncated randomUUID, nowIso the current ISO timestamp. The returned
config is what saveConfig writes. -/
def createJobTool (schedule description prompt : String) (enabled : Bool)
    (newId nowIso : String) (config : CronConfig) : ToolResult × CronConfig :=
  let newJob : CronJob :=
    { id := newId, enabled := enabled, schedule := schedule,
      description := description, prompt := prompt,
      created_at := nowIso, updated_at := nowIso }
  let res : ToolResult :=
    { text := "Created job \"" ++ newId ++ "\":\n• Schedule: " ++ schedule
        ++ "\n• Description: " ++ description
        ++ "\n• Status: " ++ (if enabled then "enabled" else "disabled")
        ++ "\n\nThe watcher will automatically pick up this new job." }
  (res, ⟨config.jobs ++ [newJob]⟩)

/-- The field-assignment block of the edit_job branch: each supplied
argument overwrites its field, updated_at is always set to the current
time, everything else keeps the stored value. -/
def editedJob (schedule description prompt : Option String)
    (enabled : Option Bool) (nowIso : String) (job : CronJob) : CronJob :=
  { job with
    schedule := schedule.getD job.schedule
    description := description.getD job.description
    prompt := prompt.getD job.prompt
    enabled := enabled.getD job.enabled
    updated_at := nowIso }

/-- The edit_job branch of the call-tool handler: absent arguments are
none; returns the result and, when a save happens, the config written by
saveConfig. findIndex always returns an in-range index, so the inner
none case is unreachable. -/
def editJobTool (id : String) (schedule description prompt : Option String)
    (enabled : Option Bool) (nowIso : String) (config : CronConfig) :
    ToolResult × Option CronConfig :=
  match config.jobs.findIdx? (fun j => j.id == id) with
  | none => ({ text := "Job not found: " ++ id, isError := true }, none)
  | some i =>
    match config.jobs[i]? with
    | none => ({ text := "Job not found: " ++ id, isError := true }, none)
    | some job =>
      let job' := editedJob schedule description prompt enabled nowIso job
      let res : ToolResult :=
        { text := "Updated job \"" ++ id ++ "\":\n• Schedule: " ++ job'.schedule
            ++ "\n• Description: " ++ job'.description
            ++ "\n• Status: " ++ (if job'.enabled then "enabled" else "disabled") }
      (res, some ⟨config.jobs.set i job'⟩)

/-- The get_job branch of the call-tool handler. -/
def getJobTool (id : String) (config : CronConfig) : ToolResult :=
  match config.jobs.find? (fun j => j.id == id) with
  | none => { text := "Job not found: " ++ id, isError := true }
  | some job =>
    { text := "Job: " ++ job.id ++ "\n\nSchedule: " ++ job.schedule
        ++ "\nDescription: " ++ job.description
        ++ "\nStatus: " ++ (if job.enabled then "enabled" else "disabled")
        ++ "\nCreated: " ++ job.created_at ++ "\nUpdated: " ++ job.updated_at
        ++ "\n\nPrompt:\n" ++ job.prompt }

/-- Math.round of a quotient of integers with positive divisor, as used
for the runs-in display. -/
def jsRoundDiv (a b : Int) : Int :=
  (2 * a + b) / (2 * b)

/-- The schedule_once branch of the call-tool handler. The two Date
formatters (toLocaleString in the Toronto zone and toISOString) are
external, passed as parameters; nowMs and torontoNow feed parseDelay.
Returns the result and, when a save happens, the config written by
saveConfig. -/
def scheduleOnceTool (formatToronto toIso : Int → String)
    (delay description prompt : String) (nowMs torontoNow : Int)
    (newId nowIso : String) (config : CronConfig) : ToolResult × Option CronConfig :=
  match parseDelay nowMs torontoNow delay with
  | none =>
    let res : ToolResult :=
      { text := "Could not parse delay: \"" ++ delay
          ++ "\". Try formats like \"in 5 minutes\", \"in 1 hour\", \"at 3pm\", \"at 15:30\""
        isError := true }
    (res, none)
  | some runAt =>
    let torontoTimeStr := formatToronto runAt
    let newJob : CronJob :=
      { id := newId, enabled := true,
        schedule := "once at " ++ torontoTimeStr ++ " ET",
        description := description, prompt := prompt,
        created_at := nowIso, updated_at := nowIso,
        run_once := some true, run_at := some (toIso runAt) }
    let diffMs := runAt - nowMs
    let diffMins := jsRoundDiv diffMs 60000
    let timeStr := if diffMins < 60
      then toString diffMins ++ " minute" ++ (if diffMins ≠ 1 then "s" else "")
      else toString (jsRoundDiv diffMins 60) ++ " hour"
        ++ (if jsRoundDiv diffMins 60 ≠ 1 then "s" else "")
    let res : ToolResult :=
      { text := "Scheduled one-off task \"" ++ newId ++ "\":\n• Runs in: " ++ timeStr
          ++ " (" ++ torontoTimeStr ++ " ET)\n• Description: " ++ description
          ++ "\n\nThis task will auto-delete after it runs." }
    (res, some ⟨config.jobs ++ [newJob]⟩)

/-- One entry of the serverConfigs array of gateway.ts. -/
structure ServerConfig where
  name : String
  path : String
  requiredEnv : List String
  deriving DecidableEq, Repr

/-- The serverConfigs array of gateway.ts main. -/
def serverConfigs : List ServerConfig :=
  [ ⟨"image-gen", "/image-gen", ["OPENROUTER_API_KEY"]⟩,
    ⟨"telegram", "/telegram", ["TELEGRAM_BOT_TOKEN"]⟩,
    ⟨"cron", "/cron", []⟩,
    ⟨"finnhub", "/finnhub", ["FINNHUB_API_KEY"]⟩,
    ⟨"google-places", "/google-places", ["GOOGLE_PLACES_API_KEY"]⟩ ]

/-- checkEnvVars of gateway.ts: every listed variable is set to a truthy
value in the environment. -/
def checkEnvVars (env : String → Option String) (vars : List String) : Bool :=
  vars.all (fun v => jsTruthy (env v))

/-- Observable outcome of the gateway startup loop: the mount calls made
(base path and name, in order), the loadedServers list and the
skippedServers list. -/
structure StartupResult where
  mounts : List (String × String)
  loaded : List String
  skipped : List String
  deriving DecidableEq, Repr

/-- The startup loop of gateway.ts main: a config whose env check fails
is skipped with a logged reason; otherwise create runs (createOk tells
whether it does not throw) and on success mount is called and the name
recorded as loaded, on failure the name is recorded as skipped. -/
def runStartup (env : String → Option String) (createOk : String → Bool) :
    List ServerConfig → StartupResult
  | [] => ⟨[], [], []⟩
  | cfg :: rest =>
    let r := runStartup env createOk rest
    if !(checkEnvVars env cfg.requiredEnv) then
      ⟨r.mounts, r.loaded, cfg.name :: r.skipped⟩
    else if createOk cfg.name then
      ⟨(cfg.path, cfg.name) :: r.mounts, cfg.name :: r.loaded, r.skipped⟩
    else
      ⟨r.mounts, r.loaded, cfg.name :: r.skipped⟩

/-- Auth configuration read from the process environment by
getAuthConfig of http-transport.ts. -/
structure AuthConfig where
  clientId : String
  clientSecret : String
  publicUrl : String
  enabled : Bool
  deriving DecidableEq, Repr

/-- getAuthConfig reads the three MCP auth variables; auth is enabled
exactly when the client secret is set non-empty. -/
def getAuthConfig (env : String → Option String) : AuthConfig :=
  { clientId := if jsTruthy (env "MCP_AUTH_CLIENT_ID") then (env "MCP_AUTH_CLIENT_ID").getD ""
      else "mcp-client"
    clientSecret := if jsTruthy (env "MCP_AUTH_CLIENT_SECRET") then
        (env "MCP_AUTH_CLIENT_SECRET").getD ""
      else ""
    publicUrl := if jsTruthy (env "MCP_PUBLIC_URL") then (env "MCP_PUBLIC_URL").getD ""
      else ""
    enabled := jsTruthy (env "MCP_AUTH_CLIENT_SECRET") }

/-- Body of the gateway GET /health response. -/
structure HealthBody where
  status : String
  sessions : Nat
  authEnabled : Bool
  deriving DecidableEq, Repr

/-- GET /health handler of createGatewayServer: ok status, the size of
the shared transport registry, and the auth flag. -/
def healthHandler (authConfig : AuthConfig)
    (allTransports : List (String × String)) : HealthBody :=
  { status := "ok", sessions := allTransports.length, authEnabled := authConfig.enabled }

/-- One registered express route with its auth requirement. -/
structure Route where
  method : String
  path : String
  requiresAuth : Bool
  deriving DecidableEq, Repr

/-- Routes registered by one gateway mount call: the three MCP verbs
under basePath/mcp, guarded by the bearer middleware exactly when auth
is enabled. -/
def mountRoutes (authEnabled : Bool) (basePath : String) : List Route :=
  let normalizedPath := if basePath.startsWith "/" then basePath else "/" ++ basePath
  let mcpPath := normalizedPath ++ "/mcp"
  [ ⟨"POST", mcpPath, authEnabled⟩, ⟨"GET", mcpPath, authEnabled⟩,
    ⟨"DELETE", mcpPath, authEnabled⟩ ]

/-- The health route is registered with no auth middleware. -/
def healthRoute : Route :=
  ⟨"GET", "/health", false⟩

/-! Store lemmas shared by the OAuth theorems. -/

theorem find?_map_set (t : List (String × AuthCode)) (k : String) (v : AuthCode)
    (h : (t.any fun p => p.1 == k) = true) :
    (t.map fun p => if (p.1 == k) = true then (k, v) else p).find? (fun p => p.1 == k)
      = some (k, v) := by
  induction t with
  | nil => simp at h
  | cons p t ih =>
    by_cases hp : (p.1 == k) = true
    · rw [List.map_cons, if_pos hp]
      exact List.find?_cons_of_pos _ (by simp)
    · simp only [List.any_cons, hp, Bool.false_or] at h
      rw [List.map_cons, if_neg hp, List.find?_cons_of_neg _ (by simpa using hp)]
      exact ih h

theorem find?_append_fresh (t : List (String × AuthCode)) (k : String) (v : AuthCode)
    (h : (t.any fun p => p.1 == k) = false) :
    (t ++ [(k, v)]).find? (fun p => p.1 == k) = some (k, v) := by
  induction t with
  | nil =>
    rw [List.nil_append]
    exact List.find?_cons_of_pos _ (by simp)
  | cons p t ih =>
    simp only [List.any_cons, Bool.or_eq_false_iff] at h
    rw [List.cons_append, List.find?_cons_of_neg _ (by simp [h.1])]
    exact ih h.2

theorem storeGet_storeSet (store : AuthCodeStore) (k : String) (v : AuthCode) :
    storeGet (storeSet store k v) (some k) = some v := by
  show Option.map (fun p => p.2) ((storeSet store k v).find? (fun p => p.1 == k)) = some v
  unfold storeSet
  split_ifs with h
  · rw [find?_map_set _ _ _ h]
    rfl
  · rw [find?_append_fresh _ _ _ (by rwa [Bool.not_eq_true] at h)]
    rfl

theorem storeGet_storeDelete (store : AuthCodeStore) (k : String) :
    storeGet (storeDelete store (some k)) (some k) = none := by
  show Option.map (fun p => p.2)
    ((store.filter (fun p => !(p.1 == k))).find? (fun p => p.1 == k)) = none
  have hf : (store.filter (fun p => !(p.1 == k))).find? (fun p => p.1 == k) = none := by
    rw [List.find?_eq_none]
    intro p hp
    have := (List.mem_filter.mp hp).2
    simpa using this
  rw [hf]
  rfl

/-! Claim theorems for the OAuth gate and the MCP session layer. -/

/-- C4: verifyPkce returns true for method S256 exactly when the
base64url SHA-256 digest of the verifier equals the challenge, for
method plain exactly when the verifier equals the challenge, and false
for every other method string; in particular the round trip succeeds for
every verifier and any verifier whose digest differs from the stored
challenge fails. -/
theorem verifyPkce_characterization (hash : String → String) :
    (∀ v c, verifyPkce hash v c "S256" = (hash v == c))
    ∧ (∀ v c, verifyPkce hash v c "plain" = (v == c))
    ∧ (∀ v c m, m ≠ "S256" → m ≠ "plain" → verifyPkce hash v c m = false)
    ∧ (∀ v, verifyPkce hash v (hash v) "S256" = true)
    ∧ (∀ v c, hash v ≠ c → verifyPkce hash v c "S256" = false) := by
  refine ⟨fun v c => by simp [verifyPkce], fun v c => by simp [verifyPkce],
    fun v c m h1 h2 => by simp [verifyPkce, h1, h2], fun v => by simp [verifyPkce],
    fun v c h => by simp [verifyPkce, h]⟩

/-- Witness for verifyPkce_characterization at a concrete digest
function and concrete inputs. -/
theorem verifyPkce_characterization_witness :
    verifyPkce (fun s => s ++ "#") "v" "v#" "S256" = true
    ∧ verifyPkce (fun s => s ++ "#") "w" "bad" "S256" = false
    ∧ verifyPkce (fun s => s ++ "#") "x" "x" "plain" = true
    ∧ verifyPkce (fun s => s ++ "#") "y" "y" "other" = false := by
  have h := verifyPkce_characterization (fun s => s ++ "#")
  exact ⟨h.2.2.2.1 "v", h.2.2.2.2 "w" "bad" (by decide),
    by simpa using h.2.1 "x" "x", h.2.2.1 "y" "y" "other" (by decide) (by decide)⟩

/-- C2: when every check of the token endpoint passes, the code is
deleted from the store and the response is the configured client secret
as a Bearer token with expires_in 3600 and scope mcp:tools; a second
exchange attempt with the same code then fails with 400 invalid_grant,
Invalid or expired code. Proved for both copies of the endpoint. -/
theorem token_success_then_replay_fails
    (hash : String → String) (secret : String) (now now2 : Int)
    (req req2 : TokenRequest) (store : AuthCodeStore) (c : String) (ac : AuthCode)
    (hgt : req.grant_type = some "authorization_code")
    (hcode : req.code = some c)
    (hget : storeGet store (some c) = some ac)
    (hexp : ¬ now > ac.expiresAt)
    (hred : jsTruthy req.redirect_uri = true → req.redirect_uri = some ac.redirectUri)
    (hver : jsTruthy req.code_verifier = true)
    (hpk : verifyPkce hash (req.code_verifier.getD "") ac.codeChallenge
        ac.codeChallengeMethod = true)
    (hgt2 : req2.grant_type = some "authorization_code")
    (hcode2 : req2.code = some c) :
    tokenHandlerLocal hash secret now req store
      = (.token secret "Bearer" 3600 "mcp:tools", storeDelete store (some c))
    ∧ tokenHandlerGateway hash secret now req store
      = (.token secret "Bearer" 3600 "mcp:tools", storeDelete store (some c))
    ∧ tokenHandlerLocal hash secret now2 req2 (storeDelete store (some c))
      = (.err 400 "invalid_grant" (some "Invalid or expired code"),
         storeDelete store (some c))
    ∧ tokenHandlerGateway hash secret now2 req2 (storeDelete store (some c))
      = (.err 400 "invalid_grant" (some "Invalid or expired code"),
         storeDelete store (some c)) := by
  have hredF : (jsTruthy req.redirect_uri
      && !(req.redirect_uri = some ac.redirectUri : Bool)) = false := by
    by_cases hr : jsTruthy req.redirect_uri = true
    · simp [hr, hred hr]
    · rw [Bool.not_eq_true] at hr
      simp [hr]
  refine ⟨?_, ?_, ?_, ?_⟩
  · simp [tokenHandlerLocal, hgt, hcode, hget, hexp, hredF, hver, hpk]
  · simp [tokenHandlerGateway, hgt, hcode, hget, hexp, hredF, hver, hpk]
  · simp [tokenHandlerLocal, hgt2, hcode2, storeGet_storeDelete]
  · simp [tokenHandlerGateway, hgt2, hcode2, storeGet_storeDelete]

/-- Witness for token_success_then_replay_fails: a concrete store, code
and request succeed once and fail on replay. -/
theorem token_success_then_replay_fails_witness :
    tokenHandlerLocal (fun s => s ++ "#") "secret" 500
        ⟨some "authorization_code", some "c1", some "https://r", some "v"⟩
        [("c1", ⟨"v#", "S256", "https://r", "x", 1000⟩)]
      = (.token "secret" "Bearer" 3600 "mcp:tools", [])
    ∧ tokenHandlerLocal (fun s => s ++ "#") "secret" 2000
        ⟨some "authorization_code", some "c1", some "https://r", some "v"⟩ []
      = (.err 400 "invalid_grant" (some "Invalid or expired code"), []) := by
  have h := token_success_then_replay_fails (fun s => s ++ "#") "secret" 500 2000
      ⟨some "authorization_code", some "c1", some "https://r", some "v"⟩
      ⟨some "authorization_code", some "c1", some "https://r", some "v"⟩
      [("c1", ⟨"v#", "S256", "https://r", "x", 1000⟩)] "c1"
      ⟨"v#", "S256", "https://r", "x", 1000⟩
      rfl rfl (by decide) (by decide) (fun _ => rfl) (by decide) (by decide) rfl rfl
  exact ⟨h.1, h.2.2.1⟩

/-- C3: a code stored by the authorize endpoint carries expiresAt equal
to issuance time plus ten minutes, and a token exchange strictly after
that time deletes the code and answers 400 invalid_grant, Code expired,
whatever code_verifier and redirect_uri the request supplies (the expiry
check runs before the PKCE check). Proved for both endpoint copies. -/
theorem token_expired_code_rejected
    (hash : String → String) (secret : String) (t0 now : Int)
    (areq : AuthorizeRequest) (c : String) (store : AuthCodeStore)
    (treq : TokenRequest)
    (hrt : areq.response_type = some "code")
    (hru : jsTruthy areq.redirect_uri = true)
    (hcc : jsTruthy areq.code_challenge = true)
    (hnow : now > t0 + 10 * 60 * 1000)
    (hgt : treq.grant_type = some "authorization_code")
    (hc : treq.code = some c) :
    tokenHandlerLocal hash secret now treq (authorizeHandler t0 c areq store).2
      = (.err 400 "invalid_grant" (some "Code expired"),
         storeDelete (authorizeHandler t0 c areq store).2 (some c))
    ∧ tokenHandlerGateway hash secret now treq (authorizeHandler t0 c areq store).2
      = (.err 400 "invalid_grant" (some "Code expired"),
         storeDelete (authorizeHandler t0 c areq store).2 (some c)) := by
  have hstore : (authorizeHandler t0 c areq store).2
      = storeSet store c
          { codeChallenge := areq.code_challenge.getD ""
            codeChallengeMethod :=
              if jsTruthy areq.code_challenge_method then areq.code_challenge_method.getD ""
              else "S256"
            redirectUri := areq.redirect_uri.getD ""
            clientId := if jsTruthy areq.client_id then areq.client_id.getD "" else "unknown"
            expiresAt := t0 + 10 * 60 * 1000 } := by
    simp [authorizeHandler, hrt, hru, hcc]
  have hget2 := storeGet_storeSet store c
      { codeChallenge := areq.code_challenge.getD ""
        codeChallengeMethod :=
          if jsTruthy areq.code_challenge_method then areq.code_challenge_method.getD ""
          else "S256"
        redirectUri := areq.redirect_uri.getD ""
        clientId := if jsTruthy areq.client_id then areq.client_id.getD "" else "unknown"
        expiresAt := t0 + 10 * 60 * 1000 }
  constructor
  · rw [hstore]
    simp only [tokenHandlerLocal, hgt, hc, hget2]
    simp [hnow]
    intro hle
    exact absurd hnow (by omega)
  · rw [hstore]
    simp only [tokenHandlerGateway, hgt, hc, hget2]
    simp [hnow]
    intro hle
    exact absurd hnow (by omega)

/-- Witness for token_expired_code_rejected at a concrete issuance and a
time eleven minutes later, with a matching verifier that is nevertheless
refused. -/
theorem token_expired_code_rejected_witness :
    tokenHandlerLocal (fun s => s ++ "#") "secret" 660000
        ⟨some "authorization_code", some "c1", none, some "v"⟩
        (authorizeHandler 0 "c1"
          ⟨some "code", some "x", some "https://r", some "v#", none, none⟩ []).2
      = (.err 400 "invalid_grant" (some "Code expired"), []) := by
  have h := token_expired_code_rejected (fun s => s ++ "#") "secret" 0 660000
      ⟨some "code", some "x", some "https://r", some "v#", none, none⟩ "c1" []
      ⟨some "authorization_code", some "c1", none, some "v"⟩
      rfl (by decide) (by decide) (by decide) rfl rfl
  exact h.1

/-- C5 counterexample: a GET /oauth/authorize request whose
response_type is token, with redirect_uri and code_challenge both
present, is answered 400 with error code unsupported_response_type, not
invalid_request as the claim states. -/
theorem authorize_bad_response_type_counterexample :
    (authorizeHandler 0 "c1"
        ⟨some "token", some "x", some "https://r", some "ch", none, none⟩ []).1
      = OAuthResponse.err 400 "unsupported_response_type" none
    ∧ "unsupported_response_type" ≠ "invalid_request" := by
  decide

/-- C5 (amended): a request with response_type not equal to code gets
400 with error unsupported_response_type; a request with response_type
code but a missing or empty redirect_uri or code_challenge gets 400 with
error invalid_request; otherwise a fresh code is stored, with challenge
method defaulting to S256 and expiry ten minutes after now, and the
response redirects to redirect_uri with the code, echoing state only
when it was supplied non-empty. The store is unchanged in both error
cases. -/
theorem authorize_characterization
    (nowMs : Int) (newCode : String) (req : AuthorizeRequest) (store : AuthCodeStore) :
    (req.response_type ≠ some "code" →
      authorizeHandler nowMs newCode req store
        = (.err 400 "unsupported_response_type" none, store))
    ∧ (req.response_type = some "code" →
        (jsTruthy req.redirect_uri = false ∨ jsTruthy req.code_challenge = false) →
      authorizeHandler nowMs newCode req store
        = (.err 400 "invalid_request" (some "Missing required parameters"), store))
    ∧ (req.response_type = some "code" →
        jsTruthy req.redirect_uri = true → jsTruthy req.code_challenge = true →
      (authorizeHandler nowMs newCode req store).1
        = .redirect (req.redirect_uri.getD "") newCode
            (if jsTruthy req.state then req.state else none)
      ∧ storeGet (authorizeHandler nowMs newCode req store).2 (some newCode)
        = some { codeChallenge := req.code_challenge.getD ""
                 codeChallengeMethod :=
                   if jsTruthy req.code_challenge_method then req.code_challenge_method.getD ""
                   else "S256"
                 redirectUri := req.redirect_uri.getD ""
                 clientId := if jsTruthy req.client_id then req.client_id.getD ""
                   else "unknown"
                 expiresAt := nowMs + 10 * 60 * 1000 }) := by
  refine ⟨fun h1 => ?_, fun h1 h2 => ?_, fun h1 h2 h3 => ⟨?_, ?_⟩⟩
  · simp [authorizeHandler, h1]
  · rcases h2 with h2 | h2 <;> simp [authorizeHandler, h1, h2]
  · simp [authorizeHandler, h1, h2, h3]
  · simp [authorizeHandler, h1, h2, h3, storeGet_storeSet]

/-- Witness for authorize_characterization exercising all three
branches at concrete requests. -/
theorem authorize_characterization_witness :
    authorizeHandler 7 "c9" ⟨some "token", none, some "https://r", some "ch", none, none⟩ []
      = (.err 400 "unsupported_response_type" none, [])
    ∧ authorizeHandler 7 "c9" ⟨some "code", none, none, some "ch", none, none⟩ []
      = (.err 400 "invalid_request" (some "Missing required parameters"), [])
    ∧ (authorizeHandler 7 "c9"
          ⟨some "code", none, some "https://r", some "ch", none, some "st"⟩ []).1
      = .redirect "https://r" "c9" (some "st")
    ∧ storeGet (authorizeHandler 7 "c9"
          ⟨some "code", none, some "https://r", some "ch", none, some "st"⟩ []).2 (some "c9")
      = some ⟨"ch", "S256", "https://r", "unknown", 7 + 10 * 60 * 1000⟩ := by
  refine ⟨?_, ?_, ?_, ?_⟩
  · exact (authorize_characterization 7 "c9"
      ⟨some "token", none, some "https://r", some "ch", none, none⟩ []).1 (by decide)
  · exact (authorize_characterization 7 "c9"
      ⟨some "code", none, none, some "ch", none, none⟩ []).2.1 rfl (Or.inl (by decide))
  · exact ((authorize_characterization 7 "c9"
      ⟨some "code", none, some "https://r", some "ch", none, some "st"⟩ []).2.2 rfl
      (by decide) (by decide)).1
  · exact ((authorize_characterization 7 "c9"
      ⟨some "code", none, some "https://r", some "ch", none, some "st"⟩ []).2.2 rfl
      (by decide) (by decide)).2

/-- C1 counterexample: a POST /mcp request carrying the empty string in
the Mcp-Session-Id header, an id that is in the registry of no live
transport, together with an initialize body, is not rejected: the
handler creates a new session instead of answering 400, and the
registry grows. -/
theorem mcpPost_empty_id_counterexample :
    ("" ∈ ([] : List String) → False)
    ∧ mcpPostHandler "fresh" [] (some "") true
        = (McpOutcome.newSession "fresh", ["fresh"])
    ∧ McpOutcome.newSession "fresh"
        ≠ McpOutcome.clientError 400 (-32000) "Bad Request: No valid session ID" := by
  decide

/-- C1 (amended): a POST /mcp request whose Mcp-Session-Id header is
absent or empty and whose body is not an initialize request, or whose
non-empty Mcp-Session-Id is not a registered live session, is answered
with status 400 and the JSON-RPC error code -32000, message Bad Request:
No valid session ID, and the session registry is left unchanged; this
holds for the standalone server handler and for the gateway mount
handler. -/
theorem mcpPost_invalid_session_rejected
    (newSid serverName : String) (transports : List String)
    (allT : List (String × String))
    (sessionId : Option String) (bodyIsInit : Bool)
    (h : (jsTruthy sessionId = false ∧ bodyIsInit = false)
       ∨ (∃ s, sessionId = some s ∧ s ≠ "" ∧ s ∉ transports
           ∧ ∀ p ∈ allT, p.1 ≠ s)) :
    mcpPostHandler newSid transports sessionId bodyIsInit
      = (.clientError 400 (-32000) "Bad Request: No valid session ID", transports)
    ∧ mcpPostHandlerGateway serverName newSid allT sessionId bodyIsInit
      = (.clientError 400 (-32000) "Bad Request: No valid session ID", allT) := by
  rcases h with ⟨h1, h2⟩ | ⟨s, hs, hne, hmem, hmem2⟩
  · constructor
    · simp [mcpPostHandler, h1, h2]
    · simp [mcpPostHandlerGateway, h1, h2]
  · subst hs
    have ht : jsTruthy (some s) = true := by simp [jsTruthy, hne]
    constructor
    · simp [mcpPostHandler, ht]
      exact hmem
    · simp [mcpPostHandlerGateway, ht]
      intro x hx
      exact hmem2 (s, x) hx rfl

/-- Witness for mcpPost_invalid_session_rejected: an unknown non-empty
session id against a one-session registry, and an absent id with a
non-initialize body. -/
theorem mcpPost_invalid_session_rejected_witness :
    (mcpPostHandler "n" ["x"] (some "y") true
      = (.clientError 400 (-32000) "Bad Request: No valid session ID", ["x"]))
    ∧ (mcpPostHandler "n" ["x"] none false
      = (.clientError 400 (-32000) "Bad Request: No valid session ID", ["x"]))
    ∧ (mcpPostHandlerGateway "srv" "n" [("x", "srv")] (some "y") true
      = (.clientError 400 (-32000) "Bad Request: No valid session ID", [("x", "srv")])) := by
  have h1 := mcpPost_invalid_session_rejected "n" "srv" ["x"] [("x", "srv")] (some "y") true
    (Or.inr ⟨"y", rfl, by decide, by decide, by decide⟩)
  have h2 := mcpPost_invalid_session_rejected "n" "srv" ["x"] [("x", "srv")] none false
    (Or.inl ⟨rfl, rfl⟩)
  exact ⟨h1.1, h2.1, h1.2⟩


/-- C6: on a delay string matched by the at-pattern, parseDelay resolves
the hour by the classic 12-hour convention (pm adds 12 unless the hour
is already at least 12, 12am becomes 0), builds the wall-clock target on
the current Toronto day, rolls it one day forward whenever it is less
than or equal to the Toronto now (equality included), and returns now
plus the offset between the Toronto target and the Toronto now; the
returned instant is strictly in the future. -/
theorem parseDelay_at_matches_spec
    (now torontoNow : Int) (s : String) (h m : Nat) (ampm : Option String)
    (hin : inMatch (normDelay s) = none)
    (hat : atMatch (normDelay s) = some (h, m, ampm)) :
    parseDelay now torontoNow s
      = some (now + (atTargetSpec torontoNow h m ampm - torontoNow))
    ∧ torontoNow < atTargetSpec torontoNow h m ampm := by
  have hh : (if ampm = some "am" ∧ (if ampm = some "pm" ∧ h < 12 then h + 12 else h) = 12
      then 0 else (if ampm = some "pm" ∧ h < 12 then h + 12 else h))
      = resolveHour12 h ampm := by
    unfold resolveHour12
    by_cases ha : ampm = some "am"
    · have hp : ¬ ampm = some "pm" := by simp [ha]
      simp [ha, hp]
    · by_cases hp : ampm = some "pm"
      · simp [ha, hp]
        split_ifs <;> omega
      · simp [ha, hp]
  constructor
  · simp only [parseDelay, hin, hat]
    rw [hh]
    rfl
  · simp only [atTargetSpec]
    split_ifs with hle <;> omega

/-- Witness for parseDelay_at_matches_spec: the string at 12am, with the
Toronto now well past midnight, rolls to the next midnight. -/
theorem parseDelay_at_matches_spec_witness :
    parseDelay 1000 50000000 "at 12am"
      = some (1000 + (atTargetSpec 50000000 12 0 (some "am") - 50000000))
    ∧ (50000000 : Int) < atTargetSpec 50000000 12 0 (some "am") :=
  parseDelay_at_matches_spec 1000 50000000 "at 12am" 12 0 (some "am")
    (by decide) (by decide)

/-- C7: on a delay string matched by the in-pattern, parseDelay returns
exactly now plus the amount times the unit duration in milliseconds,
with no dependence on the Toronto clock; on a string matching neither
pattern it returns none, and schedule_once then answers an isError
result carrying the Could-not-parse-delay message and writes no
config. -/
theorem parseDelay_in_and_failure
    (now tn tn' nowMs torontoNow : Int) (s : String)
    (formatToronto toIso : Int → String)
    (delay description prompt newId nowIso : String) (config : CronConfig) :
    (∀ n u, inMatch (normDelay s) = some (n, u) →
      parseDelay now tn s = some (now + (n : Int) * unitMs u)
      ∧ parseDelay now tn' s = parseDelay now tn s)
    ∧ (inMatch (normDelay s) = none → atMatch (normDelay s) = none →
      parseDelay now tn s = none)
    ∧ (parseDelay nowMs torontoNow delay = none →
      scheduleOnceTool formatToronto toIso delay description prompt nowMs torontoNow
          newId nowIso config
        = ({ text := "Could not parse delay: \"" ++ delay
              ++ "\". Try formats like \"in 5 minutes\", \"in 1 hour\", \"at 3pm\", \"at 15:30\""
             isError := true }, none)) := by
  refine ⟨fun n u hin => ⟨?_, ?_⟩, fun hin hat => ?_, fun hfail => ?_⟩
  · simp [parseDelay, hin]
  · simp [parseDelay, hin]
  · simp [parseDelay, hin, hat]
  · simp [scheduleOnceTool, hfail]

/-- Witness for parseDelay_in_and_failure: in 5 minutes adds exactly
five minutes whatever the Toronto clock says, and banana parses to none
so schedule_once reports the error without saving. -/
theorem parseDelay_in_and_failure_witness :
    parseDelay 1000 777 "in 5 minutes" = some (1000 + (5 : Int) * unitMs "minute")
    ∧ parseDelay 1000 999999 "in 5 minutes" = parseDelay 1000 777 "in 5 minutes"
    ∧ parseDelay 1000 777 "banana" = none
    ∧ scheduleOnceTool (fun _ => "fmt") (fun _ => "iso") "banana" "d" "p" 1000 777
        "id1" "t0" ⟨[]⟩
      = ({ text := "Could not parse delay: \"banana\""
            ++ ". Try formats like \"in 5 minutes\", \"in 1 hour\", \"at 3pm\", \"at 15:30\""
           isError := true }, none) := by
  have h1 := parseDelay_in_and_failure 1000 777 999999 1000 777 "in 5 minutes"
    (fun _ => "fmt") (fun _ => "iso") "banana" "d" "p" "id1" "t0" ⟨[]⟩
  have h2 := parseDelay_in_and_failure 1000 777 999999 1000 777 "banana"
    (fun _ => "fmt") (fun _ => "iso") "banana" "d" "p" "id1" "t0" ⟨[]⟩
  have hb : parseDelay 1000 777 "banana" = none :=
    h2.2.1 (by decide) (by decide)
  refine ⟨(h1.1 5 "minute" (by decide)).1, (h1.1 5 "minute" (by decide)).2, hb, ?_⟩
  have h3 := h2.2.2 hb
  simpa using h3

/-- C9: a missing, unreadable or unparseable config file makes
loadConfig swallow the error and return the empty job list; list_jobs
then reports no jobs, get_job reports any id as not found, and the next
mutating operation (create_job) saves a config holding only the new job,
silently discarding whatever the old file held. -/
theorem loadConfig_corrupt_discards_jobs
    (parseJson : String → Option CronConfig) (s : String)
    (hbad : parseJson s = none)
    (jid sched desc pr : String) (en : Bool) (newId nowIso : String) :
    loadConfig parseJson .missing = ⟨[]⟩
    ∧ loadConfig parseJson .unreadable = ⟨[]⟩
    ∧ loadConfig parseJson (.content s) = ⟨[]⟩
    ∧ listJobsTool true (loadConfig parseJson (.content s))
      = { text := "No scheduled jobs found." }
    ∧ getJobTool jid (loadConfig parseJson (.content s))
      = { text := "Job not found: " ++ jid, isError := true }
    ∧ (createJobTool sched desc pr en newId nowIso (loadConfig parseJson (.content s))).2
      = ⟨[{ id := newId, enabled := en, schedule := sched, description := desc,
            prompt := pr, created_at := nowIso, updated_at := nowIso }]⟩ := by
  have hload : loadConfig parseJson (.content s) = ⟨[]⟩ := by
    simp [loadConfig, hbad]
  refine ⟨rfl, rfl, hload, ?_, ?_, ?_⟩
  · rw [hload]
    rfl
  · rw [hload]
    rfl
  · rw [hload]
    rfl

/-- Witness for loadConfig_corrupt_discards_jobs with a parser that
rejects the content: the stored jobs vanish and the next create_job
saves only the new job. -/
theorem loadConfig_corrupt_discards_jobs_witness :
    loadConfig (fun _ => none) (.content "garbage") = ⟨[]⟩
    ∧ listJobsTool true (loadConfig (fun _ => none) (.content "garbage"))
      = { text := "No scheduled jobs found." }
    ∧ (createJobTool "sch" "d" "p" true "id1" "t0"
        (loadConfig (fun _ => none) (.content "garbage"))).2
      = ⟨[{ id := "id1", enabled := true, schedule := "sch", description := "d",
            prompt := "p", created_at := "t0", updated_at := "t0" }]⟩ := by
  have h := loadConfig_corrupt_discards_jobs (fun _ => none) "garbage" rfl
    "j1" "sch" "d" "p" true "id1" "t0"
  exact ⟨h.2.2.1, h.2.2.2.1, h.2.2.2.2.2⟩

/-- C10: for an existing job id, edit_job saves the array with only the
found position replaced by the edited job; the edited job overwrites
exactly the supplied fields, always sets updated_at to the current
time, and keeps id, created_at, run_once and run_at; every other
position of the array is unchanged and the length is preserved. -/
theorem editJob_partial_update_frame
    (id : String) (schedule description prompt : Option String)
    (enabled : Option Bool) (nowIso : String) (config : CronConfig)
    (i : Nat) (job : CronJob)
    (hfind : config.jobs.findIdx? (fun j => j.id == id) = some i)
    (hget : config.jobs[i]? = some job) :
    (editJobTool id schedule description prompt enabled nowIso config).2
      = some ⟨config.jobs.set i (editedJob schedule description prompt enabled nowIso job)⟩
    ∧ (editJobTool id schedule description prompt enabled nowIso config).1.isError = false
    ∧ (editedJob schedule description prompt enabled nowIso job).id = job.id
    ∧ (editedJob schedule description prompt enabled nowIso job).created_at = job.created_at
    ∧ (editedJob schedule description prompt enabled nowIso job).run_once = job.run_once
    ∧ (editedJob schedule description prompt enabled nowIso job).run_at = job.run_at
    ∧ (editedJob schedule description prompt enabled nowIso job).updated_at = nowIso
    ∧ (editedJob schedule description prompt enabled nowIso job).schedule
      = schedule.getD job.schedule
    ∧ (editedJob schedule description prompt enabled nowIso job).description
      = description.getD job.description
    ∧ (editedJob schedule description prompt enabled nowIso job).prompt
      = prompt.getD job.prompt
    ∧ (editedJob schedule description prompt enabled nowIso job).enabled
      = enabled.getD job.enabled
    ∧ (config.jobs.set i (editedJob schedule description prompt enabled nowIso job)).length
      = config.jobs.length
    ∧ ∀ k, k ≠ i →
        (config.jobs.set i (editedJob schedule description prompt enabled nowIso job))[k]?
          = config.jobs[k]? := by
  refine ⟨?_, ?_, rfl, rfl, rfl, rfl, rfl, rfl, rfl, rfl, rfl, List.length_set .., ?_⟩
  · simp [editJobTool, hfind, hget]
  · simp [editJobTool, hfind, hget]
  · intro k hk
    rw [List.getElem?_set_ne (Ne.symm hk)]

/-- Witness for editJob_partial_update_frame: editing only the prompt of
the second of three stored jobs. -/
theorem editJob_partial_update_frame_witness :
    (editJobTool "b" none none (some "newp") none "t9"
        ⟨[⟨"a", true, "s1", "d1", "p1", "c1", "u1", none, none⟩,
          ⟨"b", false, "s2", "d2", "p2", "c2", "u2", some true, some "r2"⟩,
          ⟨"c", true, "s3", "d3", "p3", "c3", "u3", none, none⟩]⟩).2
      = some ⟨[⟨"a", true, "s1", "d1", "p1", "c1", "u1", none, none⟩,
          ⟨"b", false, "s2", "d2", "newp", "c2", "t9", some true, some "r2"⟩,
          ⟨"c", true, "s3", "d3", "p3", "c3", "u3", none, none⟩]⟩ := by
  have h := editJob_partial_update_frame "b" none none (some "newp") none "t9"
    ⟨[⟨"a", true, "s1", "d1", "p1", "c1", "u1", none, none⟩,
      ⟨"b", false, "s2", "d2", "p2", "c2", "u2", some true, some "r2"⟩,
      ⟨"c", true, "s3", "d3", "p3", "c3", "u3", none, none⟩]⟩ 1
    ⟨"b", false, "s2", "d2", "p2", "c2", "u2", some true, some "r2"⟩
    (by decide) (by decide)
  exact h.1

/-! Helper lemmas for the gateway startup loop. -/

theorem runStartup_skipped_of_failed_check (env : String → Option String)
    (createOk : String → Bool) (l : List ServerConfig) (c : ServerConfig)
    (hc : c ∈ l) (hfail : checkEnvVars env c.requiredEnv = false) :
    c.name ∈ (runStartup env createOk l).skipped := by
  induction l with
  | nil => cases hc
  | cons d rest ih =>
    rcases List.mem_cons.mp hc with hd | hd
    · subst hd
      simp only [runStartup, hfail]
      simp
    · have := ih hd
      simp only [runStartup]
      split_ifs <;> simp_all

theorem runStartup_mounts_of_passed_check (env : String → Option String)
    (createOk : String → Bool) (l : List ServerConfig) (c : ServerConfig)
    (hc : c ∈ l) (hpass : checkEnvVars env c.requiredEnv = true)
    (hok : createOk c.name = true) :
    (c.path, c.name) ∈ (runStartup env createOk l).mounts := by
  induction l with
  | nil => cases hc
  | cons d rest ih =>
    rcases List.mem_cons.mp hc with hd | hd
    · subst hd
      simp only [runStartup, hpass, hok]
      simp
    · have := ih hd
      simp only [runStartup]
      split_ifs <;> simp_all

theorem runStartup_mounts_sound (env : String → Option String)
    (createOk : String → Bool) (l : List ServerConfig)
    (q : String × String) (hq : q ∈ (runStartup env createOk l).mounts) :
    ∃ c, c ∈ l ∧ q = (c.path, c.name)
      ∧ checkEnvVars env c.requiredEnv = true ∧ createOk c.name = true := by
  induction l with
  | nil => cases hq
  | cons d rest ih =>
    simp only [runStartup] at hq
    split_ifs at hq with h1 h2
    · obtain ⟨c, hcl, hrest⟩ := ih hq
      exact ⟨c, List.mem_cons_of_mem _ hcl, hrest⟩
    · rcases List.mem_cons.mp hq with hd | hd
      · exact ⟨d, List.mem_cons_self .., hd, by simpa using h1, h2⟩
      · obtain ⟨c, hcl, hrest⟩ := ih hd
        exact ⟨c, List.mem_cons_of_mem _ hcl, hrest⟩
    · obtain ⟨c, hcl, hrest⟩ := ih hq
      exact ⟨c, List.mem_cons_of_mem _ hcl, hrest⟩

theorem serverConfigs_names_nodup : (serverConfigs.map (fun c => c.name)).Nodup := by
  decide

/-- C8: a server configuration with a missing or empty required
environment variable is never passed to mount and is recorded as
skipped, while every configuration whose variables are all set (and
whose constructor does not throw) is mounted; GET /health carries no
auth middleware and answers status ok, the count of live sessions of
the shared registry, and whether a client secret is configured. -/
theorem gateway_readiness_and_health
    (env : String → Option String) (createOk : String → Bool)
    (hcreate : ∀ c ∈ serverConfigs,
      checkEnvVars env c.requiredEnv = true → createOk c.name = true)
    (c : ServerConfig) (hc : c ∈ serverConfigs) :
    (checkEnvVars env c.requiredEnv = false →
      c.name ∈ (runStartup env createOk serverConfigs).skipped
      ∧ ∀ q ∈ (runStartup env createOk serverConfigs).mounts, q.2 ≠ c.name)
    ∧ (checkEnvVars env c.requiredEnv = true →
      (c.path, c.name) ∈ (runStartup env createOk serverConfigs).mounts)
    ∧ healthRoute.requiresAuth = false
    ∧ ∀ ts, healthHandler (getAuthConfig env) ts
        = ⟨"ok", ts.length, jsTruthy (env "MCP_AUTH_CLIENT_SECRET")⟩ := by
  refine ⟨fun hfail => ⟨?_, ?_⟩, fun hpass => ?_, rfl, fun ts => rfl⟩
  · exact runStartup_skipped_of_failed_check env createOk serverConfigs c hc hfail
  · intro q hq hname
    obtain ⟨c', hc', hq', hpass', _⟩ := runStartup_mounts_sound env createOk serverConfigs q hq
    have hsame : c'.name = c.name := by
      rw [hq'] at hname
      exact hname
    have : c' = c :=
      List.inj_on_of_nodup_map serverConfigs_names_nodup hc' hc hsame
    rw [this] at hpass'
    rw [hpass'] at hfail
    cases hfail
  · exact runStartup_mounts_of_passed_check env createOk serverConfigs c hc hpass
      (hcreate c hc hpass)

/-- Witness for gateway_readiness_and_health: an environment holding
only the Telegram token mounts telegram, skips image-gen, and health
reports one session with auth disabled. -/
theorem gateway_readiness_and_health_witness :
    "image-gen" ∈ (runStartup
        (fun v => if v = "TELEGRAM_BOT_TOKEN" then some "tok" else none)
        (fun _ => true) serverConfigs).skipped
    ∧ ("/telegram", "telegram") ∈ (runStartup
        (fun v => if v = "TELEGRAM_BOT_TOKEN" then some "tok" else none)
        (fun _ => true) serverConfigs).mounts
    ∧ healthRoute.requiresAuth = false
    ∧ healthHandler
        (getAuthConfig (fun v => if v = "TELEGRAM_BOT_TOKEN" then some "tok" else none))
        [("s1", "telegram")]
      = ⟨"ok", 1, false⟩ := by
  have h1 := gateway_readiness_and_health
    (fun v => if v = "TELEGRAM_BOT_TOKEN" then some "tok" else none) (fun _ => true)
    (fun c _ _ => rfl) ⟨"image-gen", "/image-gen", ["OPENROUTER_API_KEY"]⟩ (by decide)
  have h2 := gateway_readiness_and_health
    (fun v => if v = "TELEGRAM_BOT_TOKEN" then some "tok" else none) (fun _ => true)
    (fun c _ _ => rfl) ⟨"telegram", "/telegram", ["TELEGRAM_BOT_TOKEN"]⟩ (by decide)
  exact ⟨(h1.1 (by decide)).1, h2.2.1 (by decide), h1.2.2.1,
    h2.2.2.2 [("s1", "telegram")]⟩
